import Mathlib

/-!
Verification of the TransactionHistory view (src/src/pages/TransactionHistory.tsx).

The component is pure fetch-transform-render glue.  We embed it shallowly:

* JavaScript `number` fields that hold decimal currency amounts are modelled
  as rationals (the spec treats them as exact decimal amounts).
* `Number.prototype.toFixed(2)` is modelled by `toFixed2`, following the
  ECMAScript algorithm on exact rationals: pick the integer n with n / 100
  closest to the value, the larger n on a tie, sign handled separately.
* The JSX tree is modelled by a `Page` record.  The Summary card appears in
  the returned JSX unconditionally, before the loading/empty/populated
  conditional, so `Page` carries the summary fields unconditionally and a
  `ListRegion` value for the conditional region below it.
* JavaScript truthiness in the source (`transactions[0]?.currency || "USD"`,
  `transaction.food_items?.name || "Gift Item"`,
  `transaction.buyer_note && ...`) is embedded faithfully: `null`/absent and
  the empty string are both falsy.
* The two async handlers (`checkUser`, `fetchTransactions`) become pure
  functions from their awaited responses to an outcome record listing the
  state written, the navigation performed, the requests issued, the toasts
  shown and the console errors logged.
-/

/-- One row of the `transactions` relation as the component receives it.
`food_items` is the nested join result `\x7b name: string \x7d | null`,
modelled by the optional name. -/
structure Transaction where
  id : String
  buyer_email : String
  buyer_note : Option String
  item_price : ℚ
  service_fee : ℚ
  total_amount : ℚ
  currency : String
  status : String
  created_at : String
  food_items : Option String
deriving DecidableEq, Repr

/-- Source `getCurrencySymbol`: fixed object lookup with fallback. -/
def getCurrencySymbol (currency : String) : String :=
  if currency = "USD" then "$"
  else if currency = "EUR" then "€"
  else if currency = "GBP" then "£"
  else if currency = "NGN" then "₦"
  else "$"

/-- Source `getTotalReceived`: `transactions.reduce((sum, tx) => sum + tx.item_price, 0)`. -/
def getTotalReceived (transactions : List Transaction) : ℚ :=
  transactions.foldl (fun sum tx => sum + tx.item_price) 0

/-- ECMAScript `toFixed(2)` on a nonnegative exact rational: the integer n
with n / 100 nearest to q, the larger n on a tie, printed as units, a dot
and two digits. -/
def toFixed2Nonneg (q : ℚ) : String :=
  let n : ℤ := Rat.floor (q * 100 + 1 / 2)
  let m : ℕ := n.toNat
  toString (m / 100) ++ "." ++ (if m % 100 < 10 then "0" else "") ++ toString (m % 100)

/-- ECMAScript `toFixed(2)`: negative values print a minus sign before the
rendering of the magnitude. -/
def toFixed2 (q : ℚ) : String :=
  if q < 0 then "-" ++ toFixed2Nonneg (-q) else toFixed2Nonneg q

/-- The visible content of one transaction card (lines 156 to 207 of the
source).  `dateText` keeps the raw timestamp: the date-fns `format` call is
an external library and no claim depends on its output. -/
structure TransactionCard where
  title : String
  statusBadge : String
  priceText : String
  feeText : String
  buyerLine : String
  dateText : String
  noteBlock : Option String
deriving DecidableEq, Repr

/-- One card of the transactions list.  `food_items?.name || "Gift Item"`
falls back on absence and on the empty string; `buyer_note && (...)` omits
the note block when the note is null or the empty string. -/
def renderCard (transaction : Transaction) : TransactionCard :=
  { title :=
      match transaction.food_items with
      | none => "Gift Item"
      | some n => if n = "" then "Gift Item" else n
    statusBadge := transaction.status
    priceText := getCurrencySymbol transaction.currency ++ toFixed2 transaction.item_price
    feeText := "+" ++ getCurrencySymbol transaction.currency
      ++ toFixed2 transaction.service_fee ++ " service fee"
    buyerLine := transaction.buyer_email
    dateText := transaction.created_at
    noteBlock :=
      match transaction.buyer_note with
      | none => none
      | some note => if note = "" then none else some ("\"" ++ note ++ "\"") }

/-- The conditional region below the Summary card: `isLoading ? spinner
: transactions.length === 0 ? emptyState : cards`. -/
inductive ListRegion where
  | loading
  | emptyState
  | cards (items : List TransactionCard)
deriving DecidableEq, Repr

/-- The rendered page.  The Summary card stands in the JSX before the
conditional, so its count, currency symbol and total are fields of every
page; `listRegion` is the three-way conditional. -/
structure Page where
  summaryCount : Nat
  summarySymbol : String
  summaryTotal : String
  listRegion : ListRegion
deriving DecidableEq, Repr

/-- The return value of the `TransactionHistory` component as a function of
its state.  `summarySymbol` embeds
`getCurrencySymbol(transactions[0]?.currency || "USD")` and `summaryTotal`
embeds `getTotalReceived().toFixed(2)`. -/
def TransactionHistoryView (isLoading : Bool) (transactions : List Transaction) : Page :=
  { summaryCount := transactions.length
    summarySymbol := getCurrencySymbol
      (match transactions.head? with
       | none => "USD"
       | some t => if t.currency = "" then "USD" else t.currency)
    summaryTotal := toFixed2 (getTotalReceived transactions)
    listRegion :=
      if isLoading then ListRegion.loading
      else if transactions.length = 0 then ListRegion.emptyState
      else ListRegion.cards (transactions.map renderCard) }

/-- The read request `fetchTransactions` builds against the data store. -/
structure QueryRequest where
  table : String
  selectArg : String
  eqFilters : List (String × String)
  orderColumn : String
  orderAscending : Bool
deriving DecidableEq, Repr

/-- The one request issued by `fetchTransactions`: `.from("transactions")
.select(...).eq("recipient_id", userId).eq("status", "completed")
.order("created_at", \x7b ascending: false \x7d)`.  `selectArg` is the raw
template literal, newlines and indentation included. -/
def transactionsQuery (userId : String) : QueryRequest :=
  { table := "transactions"
    selectArg := "\n        *,\n        food_items:food_item_id (name)\n      "
    eqFilters := [("recipient_id", userId), ("status", "completed")]
    orderColumn := "created_at"
    orderAscending := false }

/-- The awaited supabase response: `data` is null exactly on error. -/
structure QueryResponse where
  data : Option (List Transaction)
  error : Option String
deriving DecidableEq, Repr

/-- The three state fields of the component. -/
structure ComponentState where
  user : Option String
  transactions : List Transaction
  isLoading : Bool
deriving DecidableEq, Repr

/-- Everything `fetchTransactions` does: the requests it issues, the state
after its completion handler runs, the toasts shown, the console errors. -/
structure FetchOutcome where
  requests : List QueryRequest
  state : ComponentState
  toasts : List String
  consoleErrors : List String
deriving DecidableEq, Repr

/-- Source `fetchTransactions`: set the loading flag, issue the one query,
then on error toast and log, leaving the list as it was; on success replace
the list with `data || []`; clear the loading flag in both branches. -/
def fetchTransactions (userId : String) (s : ComponentState) (resp : QueryResponse) :
    FetchOutcome :=
  let s1 : ComponentState := { s with isLoading := true }
  match resp.error with
  | some e =>
    { requests := [transactionsQuery userId]
      state := { s1 with isLoading := false }
      toasts := ["Failed to load transaction history"]
      consoleErrors := [e] }
  | none =>
    { requests := [transactionsQuery userId]
      state := { s1 with transactions := resp.data.getD [], isLoading := false }
      toasts := []
      consoleErrors := [] }

/-- The session object returned by the auth provider, reduced to the one
field the component reads. -/
structure Session where
  userId : String
deriving DecidableEq, Repr

/-- What the mount handler does given the awaited session. -/
structure CheckOutcome where
  nav : Option String
  setUserTo : Option String
  fetchedFor : Option String
deriving DecidableEq, Repr

/-- Source `checkUser`: `if (!session) \x7b navigate("/auth"); return; \x7d`
then `setUser(session.user); fetchTransactions(session.user.id)`. -/
def checkUser (session : Option Session) : CheckOutcome :=
  match session with
  | none => { nav := some "/auth", setUserTo := none, fetchedFor := none }
  | some sess => { nav := none, setUserTo := some sess.userId, fetchedFor := some sess.userId }

/-- A sample transaction used by witnesses. -/
def sampleTx : Transaction :=
  { id := "tx-1"
    buyer_email := "buyer@example.com"
    buyer_note := some "Thanks!"
    item_price := 25 / 2
    service_fee := 3 / 2
    total_amount := 14
    currency := "NGN"
    status := "completed"
    created_at := "2024-01-05T10:00:00Z"
    food_items := some "Jollof Rice" }

/-- A sample transaction whose buyer note is the empty string. -/
def emptyNoteTx : Transaction :=
  { sampleTx with id := "tx-2", buyer_note := some "" }

theorem getTotalReceived_foldl (a : ℚ) (txs : List Transaction) :
    txs.foldl (fun sum tx => sum + tx.item_price) a
      = a + (txs.map Transaction.item_price).sum := by
  induction txs generalizing a with
  | nil => simp
  | cons t ts ih => simp [List.foldl, ih, add_assoc]

theorem getTotalReceived_eq_sum (txs : List Transaction) :
    getTotalReceived txs = (txs.map Transaction.item_price).sum := by
  simpa using getTotalReceived_foldl 0 txs

theorem rat_floor_eq_intFloor (q : ℚ) : Rat.floor q = ⌊q⌋ := rfl

theorem toFixed2_zero : toFixed2 0 = "0.00" := by
  have h0 : ¬ ((0 : ℚ) < 0) := by norm_num
  have h2 : Rat.floor ((0 : ℚ) * 100 + 1 / 2) = 0 := by
    rw [rat_floor_eq_intFloor]; norm_num
  simp only [toFixed2, toFixed2Nonneg, h0, if_false, h2]
  rfl

theorem currency_change_preserves_total (txs : List Transaction) (c : String) :
    getTotalReceived (txs.map fun t => { t with currency := c }) = getTotalReceived txs := by
  simp only [getTotalReceived_eq_sum, List.map_map]
  rfl

theorem getCurrencySymbol_of_js_or (s : String) :
    getCurrencySymbol (if s = "" then "USD" else s) = getCurrencySymbol s := by
  by_cases h : s = "" <;> simp [getCurrencySymbol, h]

/-- A sample transaction without a joined food item. -/
def noItemTx : Transaction :=
  { sampleTx with id := "tx-3", food_items := none }

/-- A failed query response. -/
def errResp : QueryResponse :=
  { data := none, error := some "network down" }

/-- A successful query response carrying one row. -/
def okResp : QueryResponse :=
  { data := some [sampleTx], error := none }

/-- An initial component state. -/
def initState : ComponentState :=
  { user := none, transactions := [], isLoading := true }

/-- C1 counterexample: in the loaded-but-empty state the empty-state branch
renders, yet the page still carries a fully computed summary panel (count 0,
symbol $, total 0.00).  The Summary card stands in the JSX before the
three-way conditional, so it is not produced only in the
loaded-and-non-empty branch. -/
theorem summary_outside_nonempty_cex :
    (TransactionHistoryView false []).listRegion = ListRegion.emptyState ∧
    (TransactionHistoryView false []).summaryCount = 0 ∧
    (TransactionHistoryView false []).summarySymbol = "$" ∧
    (TransactionHistoryView false []).summaryTotal = "0.00" := by
  refine ⟨rfl, rfl, rfl, ?_⟩
  show toFixed2 (getTotalReceived []) = "0.00"
  exact toFixed2_zero

/-- C1 (amended): the list region below the summary is a function of state
with three mutually exclusive branches chosen in priority order: loading,
then loaded-but-empty, then loaded-and-non-empty; the summary panel (count
and total) is computed unconditionally in every state; in particular, when
zero rows are returned, the empty-state branch renders. -/
theorem render_branch_structure (isLoading : Bool) (transactions : List Transaction) :
    (isLoading = true →
      (TransactionHistoryView isLoading transactions).listRegion = ListRegion.loading) ∧
    (isLoading = false → transactions = [] →
      (TransactionHistoryView isLoading transactions).listRegion = ListRegion.emptyState) ∧
    (isLoading = false → transactions ≠ [] →
      (TransactionHistoryView isLoading transactions).listRegion
        = ListRegion.cards (transactions.map renderCard)) ∧
    (TransactionHistoryView isLoading transactions).summaryCount = transactions.length ∧
    (TransactionHistoryView isLoading transactions).summaryTotal
      = toFixed2 (getTotalReceived transactions) := by
  refine ⟨?_, ?_, ?_, rfl, rfl⟩
  · intro h; simp [TransactionHistoryView, h]
  · intro h h2; simp [TransactionHistoryView, h, h2]
  · intro h h2; simp [TransactionHistoryView, h, List.length_eq_zero, h2]

/-- Witness for C1 (amended): with loading over and one row held, the cards
branch renders. -/
theorem render_branch_structure_witness :
    (TransactionHistoryView false [sampleTx]).listRegion
      = ListRegion.cards ([sampleTx].map renderCard) :=
  (render_branch_structure false [sampleTx]).2.2.1 rfl (by simp)

/-- C2: the displayed total equals the sum of item_price over the list
(service_fee excluded), rendered through toFixed2; the empty list sums to 0
and displays as 0.00. -/
theorem total_value_received_spec (isLoading : Bool) (transactions : List Transaction) :
    getTotalReceived transactions = (transactions.map Transaction.item_price).sum ∧
    (TransactionHistoryView isLoading transactions).summaryTotal
      = toFixed2 ((transactions.map Transaction.item_price).sum) ∧
    getTotalReceived [] = 0 ∧
    (TransactionHistoryView isLoading []).summaryTotal = "0.00" := by
  refine ⟨getTotalReceived_eq_sum transactions, ?_, rfl, ?_⟩
  · show toFixed2 (getTotalReceived transactions) = _
    rw [getTotalReceived_eq_sum]
  · show toFixed2 (getTotalReceived []) = "0.00"
    exact toFixed2_zero

/-- C3: the fixed currency mapping, the fallback for every other code, the
summary symbol comes mapped from the first transaction, and the empty list
shows $. -/
theorem currency_symbol_mapping :
    getCurrencySymbol "USD" = "$" ∧ getCurrencySymbol "EUR" = "€" ∧
    getCurrencySymbol "GBP" = "£" ∧ getCurrencySymbol "NGN" = "₦" ∧
    (∀ c : String, c ≠ "USD" → c ≠ "EUR" → c ≠ "GBP" → c ≠ "NGN" →
      getCurrencySymbol c = "$") ∧
    (∀ (isLoading : Bool) (t : Transaction) (ts : List Transaction),
      (TransactionHistoryView isLoading (t :: ts)).summarySymbol
        = getCurrencySymbol t.currency) ∧
    (∀ isLoading : Bool, (TransactionHistoryView isLoading []).summarySymbol = "$") := by
  refine ⟨rfl, rfl, rfl, rfl, ?_, ?_, fun _ => rfl⟩
  · intro c h1 h2 h3 h4; simp [getCurrencySymbol, h1, h2, h3, h4]
  · intro l t ts
    show getCurrencySymbol (if t.currency = "" then "USD" else t.currency) = _
    exact getCurrencySymbol_of_js_or t.currency

/-- Witness for C3: the unknown code XYZ falls back to $, and a list headed
by an NGN transaction shows the mapped symbol of that code. -/
theorem currency_symbol_mapping_witness :
    getCurrencySymbol "XYZ" = "$" ∧
    (TransactionHistoryView false [sampleTx]).summarySymbol = getCurrencySymbol "NGN" :=
  ⟨currency_symbol_mapping.2.2.2.2.1 "XYZ" (by decide) (by decide) (by decide) (by decide),
   currency_symbol_mapping.2.2.2.2.2.1 false sampleTx []⟩

/-- C4 counterexample: a buyer_note that is the non-null empty string has
its note block omitted (the JS guard treats the empty string as falsy),
contradicting that every non-null string renders inside quotation marks. -/
theorem note_block_cex :
    emptyNoteTx.buyer_note = some "" ∧
    (renderCard emptyNoteTx).noteBlock = none ∧
    (renderCard emptyNoteTx).noteBlock ≠ some "\"\"" := by
  refine ⟨rfl, rfl, by simp [renderCard, emptyNoteTx, sampleTx]⟩

/-- C4 (amended): a null note omits the block, a non-null non-empty note
renders verbatim inside quotation marks, and a non-null empty note is also
omitted. -/
theorem note_block_rendering (tx : Transaction) :
    (tx.buyer_note = none → (renderCard tx).noteBlock = none) ∧
    (tx.buyer_note = some "" → (renderCard tx).noteBlock = none) ∧
    (∀ s : String, tx.buyer_note = some s → s ≠ "" →
      (renderCard tx).noteBlock = some ("\"" ++ s ++ "\"")) := by
  refine ⟨?_, ?_, ?_⟩
  · intro h; simp [renderCard, h]
  · intro h; simp [renderCard, h]
  · intro s h hs; simp [renderCard, h, hs]

/-- Witness for C4 (amended): a non-empty note renders in quotes. -/
theorem note_block_rendering_witness :
    (renderCard sampleTx).noteBlock = some "\"Thanks!\"" :=
  (note_block_rendering sampleTx).2.2 "Thanks!" rfl (by decide)

/-- C5: on fetch error the toast fires, the error is logged, the held list
is unchanged, and the loading flag ends false; on success the loading flag
also ends false. -/
theorem fetch_error_handling (userId : String) (s : ComponentState) (resp : QueryResponse) :
    (∀ e : String, resp.error = some e →
      (fetchTransactions userId s resp).toasts = ["Failed to load transaction history"] ∧
      (fetchTransactions userId s resp).consoleErrors = [e] ∧
      (fetchTransactions userId s resp).state.transactions = s.transactions ∧
      (fetchTransactions userId s resp).state.isLoading = false) ∧
    (resp.error = none → (fetchTransactions userId s resp).state.isLoading = false) := by
  constructor
  · intro e he; simp [fetchTransactions, he]
  · intro he; simp [fetchTransactions, he]

/-- Witness for C5: a concrete failing response toasts, keeps the empty
list, and clears the loading flag. -/
theorem fetch_error_handling_witness :
    (fetchTransactions "user-1" initState errResp).toasts
        = ["Failed to load transaction history"] ∧
    (fetchTransactions "user-1" initState errResp).state.transactions
        = initState.transactions ∧
    (fetchTransactions "user-1" initState errResp).state.isLoading = false :=
  ⟨((fetch_error_handling "user-1" initState errResp).1 "network down" rfl).1,
   ((fetch_error_handling "user-1" initState errResp).1 "network down" rfl).2.2.1,
   ((fetch_error_handling "user-1" initState errResp).1 "network down" rfl).2.2.2⟩

/-- C6: an absent session navigates to /auth, sets no user identity, and
issues no transaction fetch. -/
theorem absent_session_redirects :
    checkUser none = { nav := some "/auth", setUserTo := none, fetchedFor := none } := rfl

/-- C7: on a successful fetch the held list is the returned rows and the
displayed count is their number. -/
theorem displayed_count_eq_rows (isLoading : Bool) (userId : String)
    (s : ComponentState) (resp : QueryResponse) (h : resp.error = none) :
    (TransactionHistoryView isLoading
        (fetchTransactions userId s resp).state.transactions).summaryCount
      = (resp.data.getD []).length ∧
    (fetchTransactions userId s resp).state.transactions = resp.data.getD [] := by
  have h2 : (fetchTransactions userId s resp).state.transactions = resp.data.getD [] := by
    simp [fetchTransactions, h]
  constructor
  · show ((fetchTransactions userId s resp).state.transactions).length = _
    rw [h2]
  · exact h2

/-- Witness for C7: one returned row displays count 1. -/
theorem displayed_count_eq_rows_witness :
    (TransactionHistoryView false
        (fetchTransactions "user-1" initState okResp).state.transactions).summaryCount = 1 :=
  (displayed_count_eq_rows false "user-1" initState okResp rfl).1

/-- C8: the loader issues exactly one read request, against the
transactions table, filtering recipient_id to the user identity and status
to completed, selecting the joined food item name, ordered by created_at
descending. -/
theorem fetch_issues_one_query (userId : String) (s : ComponentState) (resp : QueryResponse) :
    (fetchTransactions userId s resp).requests = [transactionsQuery userId] ∧
    (transactionsQuery userId).table = "transactions" ∧
    (transactionsQuery userId).eqFilters = [("recipient_id", userId), ("status", "completed")] ∧
    (transactionsQuery userId).selectArg
      = "\n        *,\n        food_items:food_item_id (name)\n      " ∧
    (transactionsQuery userId).orderColumn = "created_at" ∧
    (transactionsQuery userId).orderAscending = false := by
  refine ⟨?_, rfl, rfl, rfl, rfl, rfl⟩
  cases h : resp.error <;> simp [fetchTransactions, h]

/-- C9: a transaction with no joined food item renders the fallback card
title. -/
theorem missing_food_item_fallback (tx : Transaction) (h : tx.food_items = none) :
    (renderCard tx).title = "Gift Item" := by
  simp [renderCard, h]

/-- Witness for C9: the concrete item-less transaction renders the fallback
title. -/
theorem missing_food_item_fallback_witness :
    (renderCard noItemTx).title = "Gift Item" :=
  missing_food_item_fallback noItemTx rfl

/-- C10: the summary total sums item_price regardless of per-row currency
codes, the summary symbol depends only on the first row, and each card uses
its own currency symbol for price and fee. -/
theorem cross_currency_summary (isLoading : Bool) (txs : List Transaction) :
    (∀ c : String,
      getTotalReceived (txs.map fun t => { t with currency := c }) = getTotalReceived txs) ∧
    (TransactionHistoryView isLoading txs).summaryTotal = toFixed2 (getTotalReceived txs) ∧
    (∀ (t : Transaction) (ts : List Transaction), txs = t :: ts →
      (TransactionHistoryView isLoading txs).summarySymbol = getCurrencySymbol t.currency) ∧
    (∀ tx : Transaction,
      (renderCard tx).priceText = getCurrencySymbol tx.currency ++ toFixed2 tx.item_price ∧
      (renderCard tx).feeText
        = "+" ++ getCurrencySymbol tx.currency ++ toFixed2 tx.service_fee ++ " service fee") := by
  refine ⟨fun c => currency_change_preserves_total txs c, rfl, ?_, fun tx => ⟨rfl, rfl⟩⟩
  rintro t ts rfl
  show getCurrencySymbol (if t.currency = "" then "USD" else t.currency) = _
  exact getCurrencySymbol_of_js_or t.currency

/-- Witness for C10: rewriting every currency of a concrete list leaves its
total unchanged, and the summary symbol of that list is the naira sign. -/
theorem cross_currency_summary_witness :
    getTotalReceived ([sampleTx].map fun t => { t with currency := "EUR" })
        = getTotalReceived [sampleTx] ∧
    (TransactionHistoryView false [sampleTx]).summarySymbol = "₦" :=
  ⟨(cross_currency_summary false [sampleTx]).1 "EUR",
   (cross_currency_summary false [sampleTx]).2.2.1 sampleTx [] rfl⟩
